import Mathlib

/-!
Verification of the minecraft-api-mcp protocol adapter.

The Python sources under `src/mcp/` are shallowly embedded:
Python dicts that carry JSON payloads become association lists over an
inductive `PyVal` type, Python truthiness and `str()` / `repr()` rendering
are made explicit, exceptions become `Except`, and every handler is a total
Lean function whose result records both the produced text and whether the
HTTP client layer was invoked.  Numbers that Python treats as floats are
embedded as exact rationals.
-/

set_option maxRecDepth 8000

namespace MinecraftMCP

/-- A scalar Python value as it occurs in the JSON payloads of this server,
plus string lists (sign text lines).  Nested structures that the claims never
inspect (such as the 3D `blocks` array) are carried opaquely as `vblob`. -/
inductive PyVal where
  | vnull
  | vbool (b : Bool)
  | vint (n : Int)
  | vrat (q : ℚ)
  | vstr (s : String)
  | vstrlist (xs : List String)
  | vblob (tag : String)
  deriving DecidableEq, Repr

/-- Python truthiness of a scalar value. -/
def pyTruthy : PyVal → Bool
  | .vnull => false
  | .vbool b => b
  | .vint n => n ≠ 0
  | .vrat q => q ≠ 0
  | .vstr s => s ≠ ""
  | .vstrlist xs => xs ≠ []
  | .vblob _ => true

/-- Truthiness of `d.get(k)` where a missing key yields `None`. -/
def pyTruthyOpt : Option PyVal → Bool
  | none => false
  | some v => pyTruthy v

/-- Truthiness of an optional string argument (`None` and `""` are falsy). -/
def pyTruthyOptStr : Option String → Bool
  | none => false
  | some s => s ≠ ""

/-- Python `str()` of a scalar value (as used inside f-strings). -/
def pyStr : PyVal → String
  | .vnull => "None"
  | .vbool b => if b then "True" else "False"
  | .vint n => toString n
  | .vrat q => toString q
  | .vstr s => s
  | .vstrlist xs =>
      "[" ++ String.intercalate ", " (xs.map (fun s => "\x27" ++ s ++ "\x27")) ++ "]"
  | .vblob tag => tag

/-- Python `repr()` of a scalar value (as used when a dict is formatted). -/
def pyRepr : PyVal → String
  | .vnull => "None"
  | .vbool b => if b then "True" else "False"
  | .vint n => toString n
  | .vrat q => toString q
  | .vstr s => "\x27" ++ s ++ "\x27"
  | .vstrlist xs =>
      "[" ++ String.intercalate ", " (xs.map (fun s => "\x27" ++ s ++ "\x27")) ++ "]"
  | .vblob tag => tag

/-- Python `str()` of a dict, e.g. `\x7b'success': False\x7d`. -/
def pyReprDict (d : List (String × PyVal)) : String :=
  "\x7b" ++ String.intercalate ", "
    (d.map (fun kv => "\x27" ++ kv.1 ++ "\x27: " ++ pyRepr kv.2)) ++ "\x7d"

/-- `d[k]`: a missing key raises `KeyError(k)`, whose `str()` is `'k'`. -/
def pySubscript (d : List (String × PyVal)) (k : String) : Except String PyVal :=
  match d.lookup k with
  | some v => .ok v
  | none => .error ("\x27" ++ k ++ "\x27")

/-- Is `pat` a prefix of some suffix of `l`? -/
def listContains (pat : List Char) : List Char → Bool
  | [] => pat.isEmpty
  | c :: rest => pat.isPrefixOf (c :: rest) || listContains pat rest

/-- Substring test (`pat in s` in Python). -/
def strContains (s pat : String) : Bool :=
  listContains pat.toList s.toList

/-!  ## yaw_to_cardinal  (`minecraft_mcp/utils/helpers.py`) -/

/-- Python `%` on numbers with a positive right operand: floor-mod. -/
def pyMod (a b : ℚ) : ℚ := a - b * ⌊a / b⌋

/-- The normalisation step `yaw = ((yaw + 180) % 360) - 180`. -/
def normalizeYaw (yaw : ℚ) : ℚ := pyMod (yaw + 180) 360 - 180

/-- `yaw_to_cardinal` from `minecraft_mcp/utils/helpers.py`: normalise, then
compare against the quadrant boundaries in the order the source does. -/
def yaw_to_cardinal (yaw : ℚ) : String :=
  if -45 ≤ normalizeYaw yaw ∧ normalizeYaw yaw < 45 then "SOUTH"
  else if 45 ≤ normalizeYaw yaw ∧ normalizeYaw yaw < 135 then "WEST"
  else if 135 ≤ normalizeYaw yaw ∨ normalizeYaw yaw < -135 then "NORTH"
  else "EAST"

theorem pyMod_nonneg (a : ℚ) {b : ℚ} (hb : 0 < b) : 0 ≤ pyMod a b := by
  have h1 : ((⌊a / b⌋ : ℚ)) ≤ a / b := Int.floor_le _
  have e : a / b * b = a := div_mul_cancel₀ _ (ne_of_gt hb)
  have h3 : (⌊a / b⌋ : ℚ) * b ≤ a / b * b :=
    mul_le_mul_of_nonneg_right h1 (le_of_lt hb)
  unfold pyMod
  nlinarith

theorem pyMod_lt (a : ℚ) {b : ℚ} (hb : 0 < b) : pyMod a b < b := by
  have h2 : a / b < (⌊a / b⌋ : ℚ) + 1 := Int.lt_floor_add_one _
  have e : a / b * b = a := div_mul_cancel₀ _ (ne_of_gt hb)
  have h3 : a / b * b < ((⌊a / b⌋ : ℚ) + 1) * b :=
    mul_lt_mul_of_pos_right h2 hb
  unfold pyMod
  nlinarith

theorem normalizeYaw_mem (yaw : ℚ) :
    -180 ≤ normalizeYaw yaw ∧ normalizeYaw yaw < 180 := by
  have h1 := pyMod_nonneg (yaw + 180) (b := 360) (by norm_num)
  have h2 := pyMod_lt (yaw + 180) (b := 360) (by norm_num)
  unfold normalizeYaw
  constructor <;> linarith

theorem yaw_to_cardinal_region (yaw : ℚ) :
    (yaw_to_cardinal yaw = "SOUTH" ↔ (-45 ≤ normalizeYaw yaw ∧ normalizeYaw yaw < 45))
    ∧ (yaw_to_cardinal yaw = "WEST" ↔ (45 ≤ normalizeYaw yaw ∧ normalizeYaw yaw < 135))
    ∧ (yaw_to_cardinal yaw = "NORTH" ↔ (135 ≤ normalizeYaw yaw ∨ normalizeYaw yaw < -135))
    ∧ (yaw_to_cardinal yaw = "EAST" ↔ (-135 ≤ normalizeYaw yaw ∧ normalizeYaw yaw < -45)) := by
  obtain ⟨hlo, hhi⟩ := normalizeYaw_mem yaw
  unfold yaw_to_cardinal
  set y := normalizeYaw yaw with hy
  by_cases h1 : -45 ≤ y ∧ y < 45
  · rw [if_pos h1]
    exact ⟨iff_of_true rfl h1,
      iff_of_false (by decide) (fun hc => by linarith [h1.2, hc.1]),
      iff_of_false (by decide)
        (fun hc => hc.elim (fun h => by linarith [h1.2]) (fun h => by linarith [h1.1])),
      iff_of_false (by decide) (fun hc => by linarith [h1.1, hc.2])⟩
  · rw [if_neg h1]
    by_cases h2 : 45 ≤ y ∧ y < 135
    · rw [if_pos h2]
      exact ⟨iff_of_false (by decide) h1,
        iff_of_true rfl h2,
        iff_of_false (by decide)
          (fun hc => hc.elim (fun h => by linarith [h2.2]) (fun h => by linarith [h2.1])),
        iff_of_false (by decide) (fun hc => by linarith [h2.1, hc.2])⟩
    · rw [if_neg h2]
      by_cases h3 : 135 ≤ y ∨ y < -135
      · rw [if_pos h3]
        exact ⟨iff_of_false (by decide) h1,
          iff_of_false (by decide) h2,
          iff_of_true rfl h3,
          iff_of_false (by decide)
            (fun hc => h3.elim (fun h => by linarith [hc.2]) (fun h => by linarith [hc.1]))⟩
      · rw [if_neg h3]
        push_neg at h1 h2 h3
        have he : -135 ≤ y ∧ y < -45 := by
          constructor
          · exact h3.2
          · by_contra hcon
            push_neg at hcon
            have := h1 hcon
            have := h2 this
            linarith [h3.1]
        exact ⟨iff_of_false (by decide) (fun hc => by linarith [he.2, hc.1]),
          iff_of_false (by decide) (fun hc => by linarith [he.2, hc.1]),
          iff_of_false (by decide)
            (fun hc => hc.elim (fun h => by linarith [he.2]) (fun h => by linarith [he.1])),
          iff_of_true rfl he⟩

/-- C1: for every rational-valued yaw input, `yaw_to_cardinal` first normalises
the yaw into `[-180, 180)` via the floor-mod expression `((yaw + 180) % 360) - 180`
and then returns exactly one of NORTH, SOUTH, EAST, WEST, with each range
inclusive on its lower bound and exclusive on its upper bound: SOUTH on
`[-45, 45)`, WEST on `[45, 135)`, NORTH on `[135, 180) ∪ [-180, -135)` and
EAST on `[-135, -45)`; in particular 45 maps to WEST, -45 to SOUTH,
135 to NORTH, -135 to EAST, and 540 and -540 (which normalise to -180) to
NORTH. -/
theorem yaw_to_cardinal_spec (yaw : ℚ) :
    (-180 ≤ normalizeYaw yaw ∧ normalizeYaw yaw < 180)
    ∧ (yaw_to_cardinal yaw = "SOUTH" ↔ (-45 ≤ normalizeYaw yaw ∧ normalizeYaw yaw < 45))
    ∧ (yaw_to_cardinal yaw = "WEST" ↔ (45 ≤ normalizeYaw yaw ∧ normalizeYaw yaw < 135))
    ∧ (yaw_to_cardinal yaw = "NORTH" ↔ (135 ≤ normalizeYaw yaw ∨ normalizeYaw yaw < -135))
    ∧ (yaw_to_cardinal yaw = "EAST" ↔ (-135 ≤ normalizeYaw yaw ∧ normalizeYaw yaw < -45))
    ∧ (yaw_to_cardinal yaw = "NORTH" ∨ yaw_to_cardinal yaw = "SOUTH"
        ∨ yaw_to_cardinal yaw = "EAST" ∨ yaw_to_cardinal yaw = "WEST")
    ∧ yaw_to_cardinal 45 = "WEST" ∧ yaw_to_cardinal (-45) = "SOUTH"
    ∧ yaw_to_cardinal 135 = "NORTH" ∧ yaw_to_cardinal (-135) = "EAST"
    ∧ normalizeYaw 540 = -180 ∧ yaw_to_cardinal 540 = "NORTH"
    ∧ normalizeYaw (-540) = -180 ∧ yaw_to_cardinal (-540) = "NORTH" := by
  obtain ⟨hS, hW, hN, hE⟩ := yaw_to_cardinal_region yaw
  refine ⟨normalizeYaw_mem yaw, hS, hW, hN, hE, ?_, ?_, ?_, ?_, ?_, ?_, ?_, ?_, ?_⟩
  · by_cases c1 : -45 ≤ normalizeYaw yaw ∧ normalizeYaw yaw < 45
    · exact Or.inr (Or.inl (hS.mpr c1))
    · by_cases c2 : 45 ≤ normalizeYaw yaw ∧ normalizeYaw yaw < 135
      · exact Or.inr (Or.inr (Or.inr (hW.mpr c2)))
      · by_cases c3 : 135 ≤ normalizeYaw yaw ∨ normalizeYaw yaw < -135
        · exact Or.inl (hN.mpr c3)
        · refine Or.inr (Or.inr (Or.inl ?_))
          unfold yaw_to_cardinal
          rw [if_neg c1, if_neg c2, if_neg c3]
  · norm_num [yaw_to_cardinal, normalizeYaw, pyMod]
  · norm_num [yaw_to_cardinal, normalizeYaw, pyMod]
  · norm_num [yaw_to_cardinal, normalizeYaw, pyMod]
  · norm_num [yaw_to_cardinal, normalizeYaw, pyMod]
  · norm_num [normalizeYaw, pyMod]
  · norm_num [yaw_to_cardinal, normalizeYaw, pyMod]
  · norm_num [normalizeYaw, pyMod]
  · norm_num [yaw_to_cardinal, normalizeYaw, pyMod]

/-!  ## Tool schema registry and dispatch registry
(`tools/schemas.py`, `tools/registry.py`) -/

/-- The `name` fields of the `TOOL_SCHEMAS` list in `tools/schemas.py`,
in source order. -/
def toolSchemaNames : List String :=
  ["get_players", "get_entities", "spawn_entity",
   "get_blocks", "set_blocks", "get_blocks_chunk", "fill_box", "get_heightmap",
   "broadcast_message", "send_message_to_player",
   "place_nbt_structure", "place_door_line", "place_stairs",
   "place_window_pane_wall", "place_torch", "place_sign",
   "teleport_player", "test_server_connection",
   "create_build", "add_build_task", "add_build_task_single_block_set",
   "add_build_task_block_set", "add_build_task_block_fill",
   "add_build_task_prefab_door", "add_build_task_prefab_stairs",
   "add_build_task_prefab_window", "add_build_task_prefab_torch",
   "add_build_task_prefab_sign",
   "execute_build", "query_builds_by_location", "get_build_status"]

/-- The `TOOL_HANDLERS` dict of `tools/registry.py`, in source order: each
tool name is mapped to the `(module, function)` attribute reference the
source uses as its handler value. -/
def TOOL_HANDLERS : List (String × String × String) :=
  [("get_players", "world", "handle_get_players"),
   ("get_entities", "world", "handle_get_entities"),
   ("spawn_entity", "world", "handle_spawn_entity"),
   ("get_blocks", "blocks", "handle_get_blocks"),
   ("set_blocks", "blocks", "handle_set_blocks"),
   ("get_blocks_chunk", "blocks", "handle_get_blocks_chunk"),
   ("fill_box", "blocks", "handle_fill_box"),
   ("get_heightmap", "blocks", "handle_get_heightmap"),
   ("broadcast_message", "messages", "handle_broadcast_message"),
   ("send_message_to_player", "messages", "handle_send_message_to_player"),
   ("place_nbt_structure", "prefabs", "handle_place_nbt_structure"),
   ("place_door_line", "prefabs", "handle_place_door_line"),
   ("place_stairs", "prefabs", "handle_place_stairs"),
   ("place_window_pane_wall", "prefabs", "handle_place_window_pane_wall"),
   ("place_torch", "prefabs", "handle_place_torch"),
   ("place_sign", "prefabs", "handle_place_sign"),
   ("place_ladder", "prefabs", "handle_place_ladder"),
   ("teleport_player", "system", "handle_teleport_player"),
   ("test_server_connection", "system", "handle_test_server_connection"),
   ("get_coordinate_conventions", "system", "handle_coordinate_conventions"),
   ("create_build", "builds", "handle_create_build"),
   ("add_build_task", "builds", "handle_add_build_task"),
   ("add_build_task_single_block_set", "builds", "handle_add_build_task_single_block_set"),
   ("add_build_task_block_set", "builds", "handle_add_build_task_block_set"),
   ("add_build_task_block_fill", "builds", "handle_add_build_task_block_fill"),
   ("add_build_task_prefab_door", "builds", "handle_add_build_task_prefab_door"),
   ("add_build_task_prefab_stairs", "builds", "handle_add_build_task_prefab_stairs"),
   ("add_build_task_prefab_window", "builds", "handle_add_build_task_prefab_window"),
   ("add_build_task_prefab_torch", "builds", "handle_add_build_task_prefab_torch"),
   ("add_build_task_prefab_sign", "builds", "handle_add_build_task_prefab_sign"),
   ("add_build_task_prefab_ladder", "builds", "handle_add_build_task_prefab_ladder"),
   ("execute_build", "builds", "handle_execute_build"),
   ("query_builds_by_location", "builds", "handle_query_builds_by_location"),
   ("get_build_status", "builds", "handle_get_build_status")]

/-- `get_handler` from `tools/registry.py`: `TOOL_HANDLERS.get(tool_name)`. -/
def get_handler (tool_name : String) : Option (String × String) :=
  TOOL_HANDLERS.lookup tool_name

/-- The handler functions actually defined (`async def handle_...`) in each
module of `minecraft_mcp/handlers/`, as `(module, function)` pairs. -/
def definedHandlerFuns : List (String × String) :=
  [("world", "handle_get_players"),
   ("world", "handle_get_entities"),
   ("world", "handle_spawn_entity"),
   ("blocks", "handle_get_blocks"),
   ("blocks", "handle_set_blocks"),
   ("blocks", "handle_get_blocks_chunk"),
   ("blocks", "handle_fill_box"),
   ("blocks", "handle_get_heightmap"),
   ("messages", "handle_broadcast_message"),
   ("messages", "handle_send_message_to_player"),
   ("builds", "handle_add_build_task"),
   ("builds", "handle_create_build"),
   ("builds", "handle_add_build_task_block_set"),
   ("builds", "handle_add_build_task_block_fill"),
   ("builds", "handle_add_build_task_prefab_door"),
   ("builds", "handle_add_build_task_prefab_stairs"),
   ("builds", "handle_add_build_task_prefab_window"),
   ("builds", "handle_add_build_task_prefab_torch"),
   ("builds", "handle_add_build_task_prefab_sign"),
   ("builds", "handle_execute_build"),
   ("builds", "handle_query_builds_by_location"),
   ("builds", "handle_get_build_status"),
   ("prefabs", "handle_place_nbt_structure"),
   ("prefabs", "handle_place_door_line"),
   ("prefabs", "handle_place_stairs"),
   ("prefabs", "handle_place_window_pane_wall"),
   ("prefabs", "handle_place_torch"),
   ("prefabs", "handle_place_sign"),
   ("system", "handle_teleport_player"),
   ("system", "handle_test_server_connection"),
   ("system", "handle_coordinate_conventions")]

/-- C2: evaluation of the registries at the failing inputs.  Every schema
name is a key of `TOOL_HANDLERS`, but the dispatch registry additionally
contains the keys `place_ladder`, `get_coordinate_conventions` and
`add_build_task_prefab_ladder`, which are not schema names and are not
deprecated aliases; moreover the registry values for `place_ladder`,
`add_build_task_single_block_set` and `add_build_task_prefab_ladder`
reference handler functions that are not defined in their modules, so the
schema name `add_build_task_single_block_set` cannot resolve to an existing
handler function and importing the registry fails.  This refutes the
claimed referential integrity between the two tables. -/
theorem registry_schema_integrity_eval :
    (toolSchemaNames.all (fun n => (get_handler n).isSome) = true)
    ∧ get_handler "place_ladder" = some ("prefabs", "handle_place_ladder")
    ∧ ("prefabs", "handle_place_ladder") ∉ definedHandlerFuns
    ∧ "place_ladder" ∉ toolSchemaNames
    ∧ get_handler "add_build_task_single_block_set"
        = some ("builds", "handle_add_build_task_single_block_set")
    ∧ "add_build_task_single_block_set" ∈ toolSchemaNames
    ∧ ("builds", "handle_add_build_task_single_block_set") ∉ definedHandlerFuns
    ∧ get_handler "add_build_task_prefab_ladder"
        = some ("builds", "handle_add_build_task_prefab_ladder")
    ∧ ("builds", "handle_add_build_task_prefab_ladder") ∉ definedHandlerFuns
    ∧ "add_build_task_prefab_ladder" ∉ toolSchemaNames
    ∧ "get_coordinate_conventions" ∈ TOOL_HANDLERS.map (fun e => e.1)
    ∧ "get_coordinate_conventions" ∉ toolSchemaNames := by
  decide

/-!  ## String helpers shared by the handler proofs -/

theorem listContains_append_left (pat pre post : List Char)
    (h : listContains pat pre = true) : listContains pat (pre ++ post) = true := by
  induction pre with
  | nil =>
    cases pat with
    | nil =>
      cases post with
      | nil => rfl
      | cons d ds => simp [listContains, List.isPrefixOf]
    | cons c cs => simp [listContains, List.isEmpty] at h
  | cons c cs ih =>
    simp only [List.cons_append, listContains, Bool.or_eq_true] at h ⊢
    rcases h with h | h
    · left
      rw [List.isPrefixOf_iff_prefix] at h ⊢
      exact h.trans (List.prefix_append (c :: cs) post)
    · right
      exact ih h

theorem string_data_append (s t : String) : (s ++ t).data = s.data ++ t.data := by
  cases s with | mk a => cases t with | mk b => rfl

theorem strContains_append_left (s t pat : String)
    (h : strContains s pat = true) : strContains (s ++ t) pat = true := by
  unfold strContains at h ⊢
  unfold String.toList at h ⊢
  rw [string_data_append]
  exact listContains_append_left _ _ _ h

/-- Python `str.strip()` restricted to ASCII whitespace. -/
def isPySpace (c : Char) : Bool :=
  c = ' ' || c = '\t' || c = '\n' || c = '\r' || c = '\x0b' || c = '\x0c'

/-- Python `s.strip()`. -/
def pyStrip (s : String) : String :=
  String.mk (((s.data.dropWhile isPySpace).reverse.dropWhile isPySpace).reverse)

/-!  ## Handler results

A handler run is summarised by the text of the single `TextContent` block it
returns and by whether the Remote API Client was invoked (i.e. whether an
HTTP request was issued) during the run. -/

structure HandlerResult where
  text : String
  httpSent : Bool
  deriving DecidableEq, Repr

/-!  ## Deprecated `add_build_task` handler (`handlers/builds.py`) -/

/-- The fixed deprecation message of `handle_add_build_task`
(adjacent string literals in the source concatenate directly). -/
def addBuildTaskDeprecationText : String :=
  "❌ This tool is deprecated. Please use one of the following specific tools instead:\n" ++
  "- add_build_task_block_set: For setting blocks\n" ++
  "- add_build_task_block_fill: For filling areas\n" ++
  "- add_build_task_prefab_door: For placing doors\n" ++
  "- add_build_task_prefab_stairs: For placing stairs\n" ++
  "- add_build_task_prefab_window: For placing windows\n" ++
  "- add_build_task_prefab_torch: For placing torches\n" ++
  "- add_build_task_prefab_sign: For placing signs"

/-- `handle_add_build_task` from `handlers/builds.py`: ignores all arguments
and returns the fixed deprecation message without touching the client. -/
def handle_add_build_task (arguments : List (String × PyVal)) : HandlerResult :=
  { text := addBuildTaskDeprecationText, httpSent := false }

/-- C6: for every argument mapping, the deprecated `add_build_task` handler
issues no HTTP request and returns the same fixed deprecation message, which
names each of the specific replacement `add_build_task_*` tools. -/
theorem add_build_task_deprecated_spec (arguments : List (String × PyVal)) :
    handle_add_build_task arguments
      = { text := addBuildTaskDeprecationText, httpSent := false }
    ∧ (handle_add_build_task arguments).httpSent = false
    ∧ strContains addBuildTaskDeprecationText "deprecated" = true
    ∧ strContains addBuildTaskDeprecationText "add_build_task_block_set" = true
    ∧ strContains addBuildTaskDeprecationText "add_build_task_block_fill" = true
    ∧ strContains addBuildTaskDeprecationText "add_build_task_prefab_door" = true
    ∧ strContains addBuildTaskDeprecationText "add_build_task_prefab_stairs" = true
    ∧ strContains addBuildTaskDeprecationText "add_build_task_prefab_window" = true
    ∧ strContains addBuildTaskDeprecationText "add_build_task_prefab_torch" = true
    ∧ strContains addBuildTaskDeprecationText "add_build_task_prefab_sign" = true := by
  refine ⟨rfl, rfl, ?_, ?_, ?_, ?_, ?_, ?_, ?_, ?_⟩ <;> decide

theorem string_append_assoc (a b c : String) : a ++ b ++ c = a ++ (b ++ c) := by
  cases a with | mk x => cases b with | mk y => cases c with | mk z =>
  exact congrArg String.mk (List.append_assoc x y z)

/-!  ## Message handlers (`handlers/messages.py`) -/

/-- Rendering of an optional string in an f-string (`None` prints as such). -/
def optStrVal : Option String → String
  | none => "None"
  | some s => s

/-- `handle_send_message_to_player` from `handlers/messages.py`,
parameterised by the parsed JSON `remote` that the client call
`api_client.send_message_to_player(...)` would return.  The leading
validation check runs before the client is touched. -/
def handle_send_message_to_player (message : String)
    (player_uuid player_name : Option String) (action_bar : Bool)
    (remote : List (String × PyVal)) : HandlerResult :=
  if !pyTruthyOptStr player_uuid && !pyTruthyOptStr player_name then
    { text := "❌ Must provide either player_uuid or player_name", httpSent := false }
  else if pyTruthyOpt (remote.lookup "success") then
    let player_identifier :=
      if pyTruthyOptStr player_uuid then optStrVal player_uuid else optStrVal player_name
    let location := if action_bar then "action bar" else "chat"
    { text := "✅ Successfully sent message to player " ++ player_identifier
        ++ " in " ++ location,
      httpSent := true }
  else
    { text := "❌ Failed to send message: " ++ pyReprDict remote, httpSent := true }

/-- C3: whenever neither `player_uuid` nor `player_name` is supplied (each is
absent or `None`/empty, hence falsy), `handle_send_message_to_player` returns
the validation-error result and performs zero HTTP calls: the remote client
is never invoked, whatever it would have answered. -/
theorem send_message_requires_recipient (message : String)
    (player_uuid player_name : Option String) (action_bar : Bool)
    (remote : List (String × PyVal))
    (hu : player_uuid = none ∨ player_uuid = some "")
    (hn : player_name = none ∨ player_name = some "") :
    handle_send_message_to_player message player_uuid player_name action_bar remote
      = { text := "❌ Must provide either player_uuid or player_name",
          httpSent := false } := by
  have hu' : pyTruthyOptStr player_uuid = false := by
    rcases hu with h | h <;> subst h <;> rfl
  have hn' : pyTruthyOptStr player_name = false := by
    rcases hn with h | h <;> subst h <;> rfl
  unfold handle_send_message_to_player
  rw [hu', hn']
  simp

/-- Witness for C3 at a concrete call: both recipient fields omitted. -/
theorem send_message_requires_recipient_witness :
    handle_send_message_to_player "ping" none none false
        [("success", .vbool true)]
      = { text := "❌ Must provide either player_uuid or player_name",
          httpSent := false } :=
  send_message_requires_recipient "ping" none none false
    [("success", .vbool true)] (Or.inl rfl) (Or.inl rfl)

/-!  ## Block handlers (`handlers/blocks.py`) -/

/-- `format_coordinate_range` from `utils/formatting.py`. -/
def format_coordinate_range (x1 y1 z1 x2 y2 z2 : Int) : String :=
  "from (" ++ toString x1 ++ ", " ++ toString y1 ++ ", " ++ toString z1
    ++ ") to (" ++ toString x2 ++ ", " ++ toString y2 ++ ", " ++ toString z2 ++ ")"

/-- The response-formatting stage of `handle_fill_box` from
`handlers/blocks.py`, given the parsed JSON `result` of the client call.  A
`KeyError` raised while formatting the success branch is caught by the
handler's `except` clause and rendered through `format_error_response`. -/
def handle_fill_box (x1 y1 z1 x2 y2 z2 : Int) (block_type : String)
    (result : List (String × PyVal)) : HandlerResult :=
  if pyTruthyOpt (result.lookup "success") then
    match pySubscript result "blocks_set" with
    | .error e => { text := "Error filling box: " ++ e, httpSent := true }
    | .ok bs =>
      match pySubscript result "world" with
      | .error e => { text := "Error filling box: " ++ e, httpSent := true }
      | .ok w =>
        { text := "✅ Successfully filled " ++ pyStr bs ++ " blocks with "
            ++ block_type ++ " " ++ format_coordinate_range x1 y1 z1 x2 y2 z2
            ++ " in world " ++ pyStr w,
          httpSent := true }
  else
    { text := "❌ Failed to fill box: " ++ pyReprDict result, httpSent := true }

/-- The mocked remote response of the C8 scenario. -/
def fillBoxMockResult : List (String × PyVal) :=
  [("success", .vbool false), ("error", .vstr "out of bounds")]

/-- C8: on the mocked remote payload `\x7b"success": false, "error":
"out of bounds"\x7d`, the `fill_box` handler's output text carries the
stringified payload, contains the literal `out of bounds`, and contains no
`✅` success marker. -/
theorem fill_box_failure_output :
    (handle_fill_box 0 0 0 1 1 1 "minecraft:stone" fillBoxMockResult).text
      = "❌ Failed to fill box: \x7b\x27success\x27: False, \x27error\x27: \x27out of bounds\x27\x7d"
    ∧ strContains (handle_fill_box 0 0 0 1 1 1 "minecraft:stone" fillBoxMockResult).text
        "out of bounds" = true
    ∧ strContains (handle_fill_box 0 0 0 1 1 1 "minecraft:stone" fillBoxMockResult).text
        "✅" = false := by
  refine ⟨?_, ?_, ?_⟩ <;> decide

/-!  ## Transport boundary: `call_tool` (`server.py`) -/

/-- A registered handler as seen from the transport: it may return content
blocks or raise (modelled as `Except.error` carrying `str(e)`). -/
abbrev PyHandler := List (String × PyVal) → Except String (List String)

/-- `call_tool` from `server.py`: resolve the handler; a `None` resolution
raises `ValueError(f"Unknown tool: \x7bname\x7d")`, and the surrounding
`try`/`except` converts any exception into a single `Error: ...` text
block, so nothing escapes to the transport. -/
def call_tool (lookup : String → Option PyHandler) (name : String)
    (arguments : List (String × PyVal)) : List String :=
  match lookup name with
  | none => ["Error: " ++ ("Unknown tool: " ++ name)]
  | some handler =>
    match handler arguments with
    | .error e => ["Error: " ++ e]
    | .ok content => content

/-- C7: at the transport boundary, an unresolved tool name yields the
labelled `Unknown tool` error result (never a silent no-op), a handler
exception is converted into a textual `Error: ...` result, and a normal
handler result is passed through — every invocation produces content. -/
theorem call_tool_spec (lookup : String → Option PyHandler) (name : String)
    (arguments : List (String × PyVal)) :
    (lookup name = none →
      call_tool lookup name arguments = ["Error: " ++ ("Unknown tool: " ++ name)]
      ∧ strContains ("Error: " ++ ("Unknown tool: " ++ name)) "Unknown tool" = true)
    ∧ (∀ handler e, lookup name = some handler → handler arguments = .error e →
        call_tool lookup name arguments = ["Error: " ++ e])
    ∧ (∀ handler content, lookup name = some handler → handler arguments = .ok content →
        call_tool lookup name arguments = content) := by
  refine ⟨?_, ?_, ?_⟩
  · intro h
    refine ⟨by unfold call_tool; rw [h], ?_⟩
    rw [← string_append_assoc]
    exact strContains_append_left _ name "Unknown tool" (by decide)
  · intro handler e hl he
    simp only [call_tool, hl, he]
  · intro handler content hl hc
    simp only [call_tool, hl, hc]

/-- Witness for C7: a concrete unknown-tool lookup and a concrete raising
handler, both resolved to labelled error results. -/
theorem call_tool_spec_witness :
    call_tool (fun _ => none) "made_up_tool" []
      = ["Error: " ++ ("Unknown tool: " ++ "made_up_tool")]
    ∧ call_tool (fun _ => some (fun _ => Except.error "boom")) "fill_box" []
      = ["Error: " ++ "boom"] := by
  constructor
  · exact ((call_tool_spec (fun _ => none) "made_up_tool" []).1 rfl).1
  · exact (call_tool_spec (fun _ => some (fun _ => Except.error "boom")) "fill_box" []).2.1
      (fun _ => Except.error "boom") "boom" rfl rfl

/-!  ## Connection test (`minecraft_mcp.py`,
`MinecraftMCPServer.test_server_connection`) -/

/-- The possible outcomes of the probe `GET {api_base}/`: the exceptions the
source catches, or a response with its status and body text. -/
inductive ConnOutcome where
  | connectError
  | timeoutError
  | httpResponse (status : Nat) (body : String)
  | otherError (msg : String)

/-- `test_server_connection` from `minecraft_mcp.py`: `raise_for_status`
turns a 4xx/5xx status into `HTTPStatusError`; otherwise the stripped body is
compared against the expected `Hello World` content. -/
def test_server_connection : ConnOutcome → String
  | .connectError =>
      "❌ Cannot connect to Minecraft server - server is OFFLINE or not running"
  | .timeoutError =>
      "❌ Minecraft server connection TIMEOUT - server may be overloaded"
  | .httpResponse status body =>
      if 400 ≤ status then
        "❌ Minecraft server returned HTTP error " ++ toString status ++ ": " ++ body
      else if pyStrip body = "Hello World" then
        "✅ Minecraft server is ONLINE and responding correctly"
      else
        "⚠️ Minecraft server responded but with unexpected content: \x27"
          ++ pyStrip body ++ "\x27"
  | .otherError msg => "❌ Error testing server connection: " ++ msg

/-- C9: the connection test distinguishes its three probe outcomes with three
distinct outputs — a connect error reports the server OFFLINE, a timeout
reports a TIMEOUT with different wording, and a 200 response whose stripped
body is not the expected `Hello World` flags unexpected content with a `⚠`
warning rather than a `❌` hard failure; no two of the three coincide. -/
theorem test_server_connection_spec (body : String)
    (h : pyStrip body ≠ "Hello World") :
    strContains (test_server_connection .connectError) "OFFLINE" = true
    ∧ strContains (test_server_connection .timeoutError) "TIMEOUT" = true
    ∧ test_server_connection .connectError ≠ test_server_connection .timeoutError
    ∧ strContains (test_server_connection (.httpResponse 200 body))
        "unexpected content" = true
    ∧ (test_server_connection (.httpResponse 200 body)).data.head? = some '⚠'
    ∧ (test_server_connection .connectError).data.head? = some '❌'
    ∧ (test_server_connection .timeoutError).data.head? = some '❌'
    ∧ test_server_connection (.httpResponse 200 body) ≠ test_server_connection .connectError
    ∧ test_server_connection (.httpResponse 200 body) ≠ test_server_connection .timeoutError := by
  have hred : test_server_connection (.httpResponse 200 body)
      = "⚠️ Minecraft server responded but with unexpected content: \x27"
          ++ pyStrip body ++ "\x27" := by
    simp only [test_server_connection]
    rw [if_neg (by norm_num), if_neg h]
  have hhead : (test_server_connection (.httpResponse 200 body)).data.head? = some '⚠' := by
    rw [hred, string_data_append, string_data_append]
    rfl
  refine ⟨by decide, by decide, by decide, ?_, hhead, by decide, by decide, ?_, ?_⟩
  · rw [hred]
    exact strContains_append_left _ _ _
      (strContains_append_left _ _ _ (by decide))
  · intro heq
    rw [heq] at hhead
    exact absurd hhead (by decide)
  · intro heq
    rw [heq] at hhead
    exact absurd hhead (by decide)

/-- Witness for C9 at the concrete unexpected body `junk`. -/
theorem test_server_connection_spec_witness :
    strContains (test_server_connection (.httpResponse 200 "junk"))
        "unexpected content" = true
    ∧ strContains (test_server_connection .connectError) "OFFLINE" = true
    ∧ strContains (test_server_connection .timeoutError) "TIMEOUT" = true := by
  have h := test_server_connection_spec "junk" (by decide)
  exact ⟨h.2.2.2.1, h.1, h.2.1⟩

/-!  ## Remote API Client payload assembly (`client/minecraft_api.py`) -/

/-- `if world: payload["world"] = world` — the `world` field is appended only
when the argument is truthy (non-`None`, non-empty). -/
def worldField (world : Option String) : List (String × PyVal) :=
  match world with
  | none => []
  | some w => if w = "" then [] else [("world", .vstr w)]

/-- The JSON body assembled by `MinecraftAPIClient.spawn_entity`. -/
def spawn_entity_payload (entity_type : String) (x y z : ℚ)
    (world : Option String) : List (String × PyVal) :=
  [("type", .vstr entity_type), ("x", .vrat x), ("y", .vrat y), ("z", .vrat z)]
    ++ worldField world

/-- The JSON body assembled by `MinecraftAPIClient.set_blocks`. -/
def set_blocks_payload (start_x start_y start_z : Int) (blocks : PyVal)
    (world : Option String) : List (String × PyVal) :=
  [("start_x", .vint start_x), ("start_y", .vint start_y),
   ("start_z", .vint start_z), ("blocks", blocks)]
    ++ worldField world

/-- The JSON body assembled by `MinecraftAPIClient.fill_box`. -/
def fill_box_payload (x1 y1 z1 x2 y2 z2 : Int) (block_type : String)
    (world : Option String) : List (String × PyVal) :=
  [("x1", .vint x1), ("y1", .vint y1), ("z1", .vint z1),
   ("x2", .vint x2), ("y2", .vint y2), ("z2", .vint z2),
   ("block_type", .vstr block_type)]
    ++ worldField world

/-- All string values occurring in a payload. -/
def payloadStrings (p : List (String × PyVal)) : List String :=
  p.filterMap (fun kv => match kv.2 with | .vstr s => some s | _ => none)

/-- C4 counterexample: with `world` omitted, the body `spawn_entity`
assembles has no `world` field at all and nowhere contains the literal
`minecraft:overworld` — the claimed applied default is absent (the same
`if world:` pattern governs `set_blocks` and `fill_box`). -/
theorem spawn_entity_payload_no_applied_default :
    spawn_entity_payload "minecraft:pig" 1 2 3 none
      = [("type", .vstr "minecraft:pig"), ("x", .vrat 1),
         ("y", .vrat 2), ("z", .vrat 3)]
    ∧ (spawn_entity_payload "minecraft:pig" 1 2 3 none).lookup "world" = none
    ∧ "minecraft:overworld" ∉ payloadStrings (spawn_entity_payload "minecraft:pig" 1 2 3 none)
    ∧ (set_blocks_payload 0 0 0 (.vblob "blocks") none).lookup "world" = none
    ∧ (fill_box_payload 0 0 0 1 1 1 "minecraft:stone" none).lookup "world" = none := by
  refine ⟨rfl, rfl, by decide, rfl, rfl⟩

/-- C4 as amended: when the caller omits `world`, the client methods
`spawn_entity`, `set_blocks` and `fill_box` omit the `world` field from the
request body entirely (the `minecraft:overworld` default is documented but
applied by the remote server, not inserted by the client); an explicitly
passed non-empty world is forwarded verbatim. -/
theorem client_world_field_omitted (et : String) (x y z : ℚ)
    (sx sy sz : Int) (blocks : PyVal)
    (x1 y1 z1 x2 y2 z2 : Int) (bt : String) (w : String) :
    (spawn_entity_payload et x y z none).map Prod.fst = ["type", "x", "y", "z"]
    ∧ (spawn_entity_payload et x y z none).lookup "world" = none
    ∧ (set_blocks_payload sx sy sz blocks none).map Prod.fst
        = ["start_x", "start_y", "start_z", "blocks"]
    ∧ (set_blocks_payload sx sy sz blocks none).lookup "world" = none
    ∧ (fill_box_payload x1 y1 z1 x2 y2 z2 bt none).map Prod.fst
        = ["x1", "y1", "z1", "x2", "y2", "z2", "block_type"]
    ∧ (fill_box_payload x1 y1 z1 x2 y2 z2 bt none).lookup "world" = none
    ∧ (spawn_entity_payload et x y z (some w)).lookup "world"
        = (if w = "" then none else some (.vstr w)) := by
  refine ⟨rfl, rfl, rfl, rfl, rfl, rfl, ?_⟩
  by_cases hw : w = ""
  · subst hw
    rfl
  · simp only [spawn_entity_payload, worldField, if_neg hw]
    simp [List.lookup]

/-!  ## Structure placement (`minecraft_mcp.py`,
`MinecraftMCPServer.place_nbt_structure`)

The handler re-pads the incoming string and decodes it with Python's
`base64.b64decode` in its default non-validating mode, which is
`binascii.a2b_base64` without strict mode: characters outside the base64
alphabet are silently discarded, `=` completes a quartet once at least two
data characters are pending, and decoding stops at a completed padding
quartet; a leftover of one data character, or an incomplete final quartet,
raises `binascii.Error`. -/

/-- The base64 alphabet table (`table_a2b_base64`). -/
def b64CharVal (c : Char) : Option Nat :=
  if 'A' ≤ c ∧ c ≤ 'Z' then some (c.toNat - 65)
  else if 'a' ≤ c ∧ c ≤ 'z' then some (c.toNat - 71)
  else if '0' ≤ c ∧ c ≤ '9' then some (c.toNat + 4)
  else if c = '+' then some 62
  else if c = '/' then some 63
  else none

/-- Decoder state of `binascii.a2b_base64`: position in the current quartet,
the pending bits, consecutive pads seen, emitted bytes, and whether a
completed padding quartet has terminated decoding. -/
structure B64State where
  quadPos : Nat
  leftchar : Nat
  pads : Nat
  out : List Nat
  finished : Bool
  deriving Repr

/-- One step of the non-strict `a2b_base64` loop. -/
def b64Step (st : B64State) (c : Char) : B64State :=
  if st.finished then st
  else if c = '=' then
    if 2 ≤ st.quadPos then
      if 4 ≤ st.quadPos + (st.pads + 1) then
        { st with pads := st.pads + 1, finished := true }
      else
        { st with pads := st.pads + 1 }
    else st
  else
    match b64CharVal c with
    | none => st
    | some v =>
      match st.quadPos with
      | 0 => { st with quadPos := 1, leftchar := v, pads := 0 }
      | 1 => { st with
                quadPos := 2
                pads := 0
                out := st.out ++ [st.leftchar * 4 + v / 16]
                leftchar := v % 16 }
      | 2 => { st with
                quadPos := 3
                pads := 0
                out := st.out ++ [st.leftchar * 16 + v / 4]
                leftchar := v % 4 }
      | _ => { st with
                quadPos := 0
                pads := 0
                out := st.out ++ [st.leftchar * 64 + v]
                leftchar := 0 }

/-- `base64.b64decode` (non-validating): bytes on success, the
`binascii.Error` message on failure. -/
def pyB64Decode (s : String) : Except String (List Nat) :=
  let st := s.data.foldl b64Step ⟨0, 0, 0, [], false⟩
  if st.finished then .ok st.out
  else
    match st.quadPos with
    | 0 => .ok st.out
    | 1 => .error ("Invalid base64-encoded string: number of data characters ("
        ++ toString (st.out.length / 3 * 4 + 1)
        ++ ") cannot be 1 more than a multiple of 4")
    | _ => .error "Incorrect padding"

/-- The re-padding step of `place_nbt_structure`:
`if len % 4: data += '=' * (4 - len % 4)`. -/
def padB64 (s : String) : String :=
  if s.length % 4 ≠ 0 then s ++ String.mk (List.replicate (4 - s.length % 4) '=')
  else s

/-- `str(b).lower()` for a Python bool, as sent in the form fields. -/
def pyBoolStrLower (b : Bool) : String := if b then "true" else "false"

/-- What `place_nbt_structure` does with the decoded payload: either the
fail-fast invalid-base64 result (no request), or the multipart form-POST
carrying the decoded bytes as the `nbt_file` file part plus the stringified
form fields. -/
inductive NbtPlaceOutcome where
  | invalidBase64 (text : String)
  | sentMultipart (filename : String) (bytes : List Nat) (data : List (String × String))
  deriving DecidableEq, Repr

/-- `MinecraftMCPServer.place_nbt_structure` from `minecraft_mcp.py`, up to
the point the request is issued. -/
def place_nbt_structure (nbt_file_data filename : String) (x y z : Int)
    (world : Option String) (rotation : String)
    (include_entities replace_blocks : Bool) : NbtPlaceOutcome :=
  match pyB64Decode (padB64 nbt_file_data) with
  | .error e => .invalidBase64 ("❌ Invalid base64 data: " ++ e)
  | .ok nbt_data =>
      .sentMultipart filename nbt_data
        ([("x", toString x), ("y", toString y), ("z", toString z),
          ("rotation", rotation),
          ("include_entities", pyBoolStrLower include_entities),
          ("replace_blocks", pyBoolStrLower replace_blocks)]
          ++ (match world with
              | none => []
              | some w => if w = "" then [] else [("world", w)]))

theorem string_length_append (s t : String) : (s ++ t).length = s.length + t.length := by
  cases s with | mk a => cases t with | mk b => exact List.length_append a b

/-- The bytes a `NbtPlaceOutcome` sends, if any. -/
def sentBytes : NbtPlaceOutcome → Option (List Nat)
  | .invalidBase64 _ => none
  | .sentMultipart _ bytes _ => some bytes

/-- C5 counterexample: `%%%%` contains no base64 alphabet character and no
padding, so its content is not valid base64 under any definition, yet the
lenient decoder discards every character and succeeds with the empty byte
string, and the operation sends the multipart request instead of failing
fast with an invalid-encoding error. -/
theorem place_nbt_structure_accepts_garbage :
    "%%%%".data.all (fun c => (b64CharVal c).isNone && !(c = '=')) = true
    ∧ pyB64Decode (padB64 "%%%%") = .ok []
    ∧ place_nbt_structure "%%%%" "thing.nbt" 0 0 0 none "NONE" true true
      = .sentMultipart "thing.nbt" []
          [("x", "0"), ("y", "0"), ("z", "0"), ("rotation", "NONE"),
           ("include_entities", "true"), ("replace_blocks", "true")] := by
  refine ⟨by decide, rfl, rfl⟩

/-- C5 as amended: a string whose length is not a multiple of 4 is re-padded
with `=` to a multiple of 4; valid unpadded base64 (such as `YWJjZGU`, 7
characters) is then decoded to its bytes and sent as the multipart file
part; every input either fails fast with a descriptive
`❌ Invalid base64 data: ...` error and no request (as `a` does) or is
decoded and sent — but the decode is Python's lenient one, which discards
characters outside the base64 alphabet rather than rejecting them, so not
every invalid-content string is refused. -/
theorem place_nbt_structure_amended (s : String) (hlen : s.length % 4 ≠ 0)
    (s' filename : String) (x y z : Int) (world : Option String)
    (rotation : String) (include_entities replace_blocks : Bool) :
    (padB64 s = s ++ String.mk (List.replicate (4 - s.length % 4) '=')
      ∧ (padB64 s).length % 4 = 0)
    ∧ place_nbt_structure "YWJjZGU" "abc.nbt" 1 2 3 none "NONE" true true
      = .sentMultipart "abc.nbt" [97, 98, 99, 100, 101]
          [("x", "1"), ("y", "2"), ("z", "3"), ("rotation", "NONE"),
           ("include_entities", "true"), ("replace_blocks", "true")]
    ∧ place_nbt_structure "a" "a.nbt" 0 0 0 none "NONE" true true
      = .invalidBase64 ("❌ Invalid base64 data: "
          ++ "Invalid base64-encoded string: number of data characters (1) cannot be 1 more than a multiple of 4")
    ∧ ((∃ e, pyB64Decode (padB64 s') = .error e
          ∧ place_nbt_structure s' filename x y z world rotation include_entities replace_blocks
              = .invalidBase64 ("❌ Invalid base64 data: " ++ e))
        ∨ (∃ b, pyB64Decode (padB64 s') = .ok b
          ∧ sentBytes (place_nbt_structure s' filename x y z world rotation include_entities replace_blocks)
              = some b)) := by
  refine ⟨⟨?_, ?_⟩, rfl, rfl, ?_⟩
  · unfold padB64
    rw [if_pos hlen]
  · have hp : padB64 s = s ++ String.mk (List.replicate (4 - s.length % 4) '=') := by
      unfold padB64
      rw [if_pos hlen]
    have hmk : (String.mk (List.replicate (4 - s.length % 4) '=')).length
        = 4 - s.length % 4 := by
      have h0 : (String.mk (List.replicate (4 - s.length % 4) '=')).length
          = (List.replicate (4 - s.length % 4) '=').length := rfl
      rw [h0, List.length_replicate]
    have hl : (padB64 s).length = s.length + (4 - s.length % 4) := by
      rw [hp, string_length_append, hmk]
    rw [hl]
    omega
  · rcases hdec : pyB64Decode (padB64 s') with e | b
    · refine Or.inl ⟨e, rfl, ?_⟩
      unfold place_nbt_structure
      rw [hdec]
    · refine Or.inr ⟨b, rfl, ?_⟩
      unfold place_nbt_structure
      rw [hdec]
      rfl

/-- Witness for C5 at the concrete unpadded input `YWJjZGU` (length 7). -/
theorem place_nbt_structure_amended_witness :
    padB64 "YWJjZGU" = "YWJjZGU="
    ∧ place_nbt_structure "YWJjZGU" "abc.nbt" 1 2 3 none "NONE" true true
      = .sentMultipart "abc.nbt" [97, 98, 99, 100, 101]
          [("x", "1"), ("y", "2"), ("z", "3"), ("rotation", "NONE"),
           ("include_entities", "true"), ("replace_blocks", "true")] := by
  have h := place_nbt_structure_amended "YWJjZGU" (by decide)
    "YWJjZGU" "abc.nbt" 1 2 3 none "NONE" true true
  exact ⟨rfl, h.2.1⟩

/-!  ## Typed build-task handlers (`handlers/builds.py`) against
`MinecraftAPIClient.add_build_task` (`client/minecraft_api.py`) -/

/-- The parameters of `MinecraftAPIClient.add_build_task` after `self`:
four parameters, none of which has a default value. -/
def addBuildTaskParams : List String :=
  ["build_id", "task_type", "task_data", "description"]

/-- CPython's rendering of a list of parameter names in a `TypeError`. -/
def pyNamesJoin (names : List String) : String :=
  match names with
  | [] => ""
  | [a] => "\x27" ++ a ++ "\x27"
  | [a, b] => "\x27" ++ a ++ "\x27 and \x27" ++ b ++ "\x27"
  | _ => String.intercalate ", " (names.dropLast.map (fun n => "\x27" ++ n ++ "\x27"))
      ++ ", and \x27" ++ (names.getLast?.getD "") ++ "\x27"

/-- Python positional call binding: calling a function with fewer positional
arguments than it has non-default parameters raises a `TypeError` naming the
missing parameters, before the function body runs. -/
def pyCheckCall (fname : String) (params : List String)
    (numDefaults numArgs : Nat) : Except String Unit :=
  if numArgs < params.length - numDefaults then
    .error (fname ++ "() missing "
      ++ toString (params.length - numDefaults - numArgs)
      ++ (if params.length - numDefaults - numArgs = 1 then
            " required positional argument: "
          else " required positional arguments: ")
      ++ pyNamesJoin ((params.drop numArgs).take (params.length - numDefaults - numArgs)))
  else .ok ()

/-- The call `api_client.add_build_task(build_id, task_type, task_data)`
that every typed build-task handler makes: the three positional arguments
are this function's three parameters, bound against the four-parameter
client method. -/
def add_build_task_call (build_id task_type : String)
    (task_data : List (String × PyVal)) : Except String Unit :=
  pyCheckCall "MinecraftAPIClient.add_build_task" addBuildTaskParams 0 3

/-- The parsed JSON of `POST /api/builds/{id}/tasks`: scalar fields plus the
nested `task` object, which gets an explicit slot because `PyVal` carries
only scalars. -/
structure AddTaskResponse where
  fields : List (String × PyVal)
  task : Option (List (String × PyVal))

/-- The response formatting shared verbatim by all typed build-task handlers
in `handlers/builds.py` (each duplicates this code with its task type
inlined); `KeyError` from a missing `task`/`id`/`status` is caught by the
handler's `except` clause. -/
def addTaskResponseText (taskType build_id : String)
    (resp : AddTaskResponse) : HandlerResult :=
  if pyTruthyOpt (resp.fields.lookup "success") then
    match resp.task with
    | none => { text := "Error adding build task: \x27task\x27", httpSent := true }
    | some task =>
      match pySubscript task "id" with
      | .error e => { text := "Error adding build task: " ++ e, httpSent := true }
      | .ok tid =>
        let taskOrder :=
          match task.lookup "task_order" with
          | some v => pyStr v
          | none => "N/A"
        match pySubscript task "status" with
        | .error e => { text := "Error adding build task: " ++ e, httpSent := true }
        | .ok tstatus =>
          { text := "✅ Successfully added " ++ taskType ++ " task to build\n"
              ++ "Task ID: " ++ pyStr tid ++ "\n"
              ++ "Build ID: " ++ build_id ++ "\n"
              ++ "Task Order: " ++ taskOrder ++ "\n"
              ++ "Status: " ++ pyStr tstatus,
            httpSent := true }
  else
    { text := "❌ Failed to add task: "
        ++ (match resp.fields.lookup "error" with
            | some v => pyStr v
            | none => "Unknown error"),
      httpSent := true }

/-- `if v: task_data[key] = v` for an optional string argument. -/
def optStrField (key : String) (v : Option String) : List (String × PyVal) :=
  match v with
  | none => []
  | some s => if s = "" then [] else [(key, .vstr s)]

/-- `handle_add_build_task_block_set` from `handlers/builds.py`. -/
def handle_add_build_task_block_set (build_id : String)
    (start_x start_y start_z : Int) (blocks : PyVal) (world : Option String)
    (resp : AddTaskResponse) : HandlerResult :=
  let task_data :=
    [("start_x", PyVal.vint start_x), ("start_y", .vint start_y),
     ("start_z", .vint start_z), ("blocks", blocks)] ++ worldField world
  match add_build_task_call build_id "BLOCK_SET" task_data with
  | .error e => { text := "Error adding build task: " ++ e, httpSent := false }
  | .ok _ => addTaskResponseText "BLOCK_SET" build_id resp

/-- `handle_add_build_task_block_fill` from `handlers/builds.py`. -/
def handle_add_build_task_block_fill (build_id : String)
    (x1 y1 z1 x2 y2 z2 : Int) (block_type : String) (world : Option String)
    (resp : AddTaskResponse) : HandlerResult :=
  let task_data :=
    [("x1", PyVal.vint x1), ("y1", .vint y1), ("z1", .vint z1),
     ("x2", .vint x2), ("y2", .vint y2), ("z2", .vint z2),
     ("block_type", .vstr block_type)] ++ worldField world
  match add_build_task_call build_id "BLOCK_FILL" task_data with
  | .error e => { text := "Error adding build task: " ++ e, httpSent := false }
  | .ok _ => addTaskResponseText "BLOCK_FILL" build_id resp

/-- `handle_add_build_task_prefab_door` from `handlers/builds.py`. -/
def handle_add_build_task_prefab_door (build_id : String)
    (start_x start_y start_z : Int) (facing block_type : String) (width : Int)
    (hinge : String) (double_doors door_open : Bool) (world : Option String)
    (resp : AddTaskResponse) : HandlerResult :=
  let task_data :=
    [("start_x", PyVal.vint start_x), ("start_y", .vint start_y),
     ("start_z", .vint start_z), ("facing", .vstr facing),
     ("block_type", .vstr block_type), ("width", .vint width),
     ("hinge", .vstr hinge), ("double_doors", .vbool double_doors),
     ("open", .vbool door_open)] ++ worldField world
  match add_build_task_call build_id "PREFAB_DOOR" task_data with
  | .error e => { text := "Error adding build task: " ++ e, httpSent := false }
  | .ok _ => addTaskResponseText "PREFAB_DOOR" build_id resp

/-- `handle_add_build_task_prefab_stairs` from `handlers/builds.py`. -/
def handle_add_build_task_prefab_stairs (build_id : String)
    (start_x start_y start_z end_x end_y end_z : Int)
    (staircase_direction block_type stair_type : String) (fill_support : Bool)
    (world : Option String) (resp : AddTaskResponse) : HandlerResult :=
  let task_data :=
    [("start_x", PyVal.vint start_x), ("start_y", .vint start_y),
     ("start_z", .vint start_z), ("end_x", .vint end_x),
     ("end_y", .vint end_y), ("end_z", .vint end_z),
     ("block_type", .vstr block_type), ("stair_type", .vstr stair_type),
     ("staircase_direction", .vstr staircase_direction),
     ("fill_support", .vbool fill_support)] ++ worldField world
  match add_build_task_call build_id "PREFAB_STAIRS" task_data with
  | .error e => { text := "Error adding build task: " ++ e, httpSent := false }
  | .ok _ => addTaskResponseText "PREFAB_STAIRS" build_id resp

/-- `handle_add_build_task_prefab_window` from `handlers/builds.py`. -/
def handle_add_build_task_prefab_window (build_id : String)
    (start_x start_y start_z end_x end_z height : Int) (block_type : String)
    (waterlogged : Bool) (world : Option String)
    (resp : AddTaskResponse) : HandlerResult :=
  let task_data :=
    [("start_x", PyVal.vint start_x), ("start_y", .vint start_y),
     ("start_z", .vint start_z), ("end_x", .vint end_x),
     ("end_z", .vint end_z), ("height", .vint height),
     ("block_type", .vstr block_type),
     ("waterlogged", .vbool waterlogged)] ++ worldField world
  match add_build_task_call build_id "PREFAB_WINDOW" task_data with
  | .error e => { text := "Error adding build task: " ++ e, httpSent := false }
  | .ok _ => addTaskResponseText "PREFAB_WINDOW" build_id resp

/-- `handle_add_build_task_prefab_torch` from `handlers/builds.py`. -/
def handle_add_build_task_prefab_torch (build_id : String)
    (x y z : Int) (block_type : String) (facing : Option String)
    (world : Option String) (resp : AddTaskResponse) : HandlerResult :=
  let task_data :=
    [("x", PyVal.vint x), ("y", .vint y), ("z", .vint z),
     ("block_type", .vstr block_type)]
      ++ optStrField "facing" facing ++ worldField world
  match add_build_task_call build_id "PREFAB_TORCH" task_data with
  | .error e => { text := "Error adding build task: " ++ e, httpSent := false }
  | .ok _ => addTaskResponseText "PREFAB_TORCH" build_id resp

/-- `handle_add_build_task_prefab_sign` from `handlers/builds.py`
(`front_lines`/`back_lines` are added when not `None`, `facing` and `world`
when truthy). -/
def handle_add_build_task_prefab_sign (build_id : String)
    (x y z : Int) (block_type : String)
    (front_lines back_lines : Option (List String)) (facing : Option String)
    (rotation : Int) (glowing : Bool) (world : Option String)
    (resp : AddTaskResponse) : HandlerResult :=
  let task_data :=
    [("x", PyVal.vint x), ("y", .vint y), ("z", .vint z),
     ("block_type", .vstr block_type), ("rotation", .vint rotation),
     ("glowing", .vbool glowing)]
      ++ (match front_lines with
          | none => []
          | some xs => [("front_lines", PyVal.vstrlist xs)])
      ++ (match back_lines with
          | none => []
          | some xs => [("back_lines", PyVal.vstrlist xs)])
      ++ optStrField "facing" facing ++ worldField world
  match add_build_task_call build_id "PREFAB_SIGN" task_data with
  | .error e => { text := "Error adding build task: " ++ e, httpSent := false }
  | .ok _ => addTaskResponseText "PREFAB_SIGN" build_id resp

/-- The `TypeError` message the binding check produces for the three-argument
call. -/
def addBuildTaskMissingDescription : String :=
  "MinecraftAPIClient.add_build_task() missing 1 required positional argument: \x27description\x27"

/-- The only result any typed build-task handler can produce. -/
def buildTaskErrorResult : HandlerResult :=
  { text := "Error adding build task: " ++ addBuildTaskMissingDescription
    httpSent := false }

/-- C10: every typed build-task handler calls the client's `add_build_task`
with only `build_id`, `task_type` and `task_data` while the method requires
a fourth `description` parameter with no default, so the call raises
`TypeError` before any HTTP request is constructed; the handler's `except`
clause turns that into the error-formatted result, no HTTP request is ever
sent, and the success branch of every typed handler is unreachable. -/
theorem typed_build_task_handlers_always_fail
    (build_id : String) (resp : AddTaskResponse)
    (sx sy sz ex ey ez : Int) (blocks : PyVal)
    (x1 y1 z1 x2 y2 z2 : Int) (block_type : String)
    (facing hinge stair_type staircase_direction : String)
    (width rotation : Int) (b1 b2 : Bool)
    (optFacing world : Option String)
    (front_lines back_lines : Option (List String))
    (td : List (String × PyVal)) (tt : String) :
    add_build_task_call build_id tt td = .error addBuildTaskMissingDescription
    ∧ handle_add_build_task_block_set build_id sx sy sz blocks world resp
        = buildTaskErrorResult
    ∧ handle_add_build_task_block_fill build_id x1 y1 z1 x2 y2 z2 block_type world resp
        = buildTaskErrorResult
    ∧ handle_add_build_task_prefab_door build_id sx sy sz facing block_type width
        hinge b1 b2 world resp = buildTaskErrorResult
    ∧ handle_add_build_task_prefab_stairs build_id sx sy sz ex ey ez
        staircase_direction block_type stair_type b1 world resp = buildTaskErrorResult
    ∧ handle_add_build_task_prefab_window build_id sx sy sz ex ez width block_type
        b1 world resp = buildTaskErrorResult
    ∧ handle_add_build_task_prefab_torch build_id x1 y1 z1 block_type optFacing
        world resp = buildTaskErrorResult
    ∧ handle_add_build_task_prefab_sign build_id x1 y1 z1 block_type front_lines
        back_lines optFacing rotation b1 world resp = buildTaskErrorResult := by
  exact ⟨rfl, rfl, rfl, rfl, rfl, rfl, rfl, rfl⟩

end MinecraftMCP
